import Mathlib

/-!
Verification of the loan risk decision engine of the
enhanced-loan-default-prediction repository.

The definitions below are a shallow embedding of `src/enhanced_api.py`
(the serving path: `add_feature_engineering`, `predict`, `batch_predict`).
Floating-point values are modelled by exact rationals, with IEEE division
by zero made explicit through the `PyFloat` type (numpy/pandas float
division by zero yields ±inf, or nan for 0/0, and never raises).
The trained sklearn model is the external collaborator; it is modelled as
an abstract `Classifier` record of fallible functions.  Response fields
that no claim touches (display rounding, risk_color, reasoning text,
model_info echo) are not carried.
-/

set_option allowUnsafeReducibility true

attribute [local semireducible] Rat.add Rat.mul Rat.sub Rat.inv Rat.ofScientific

namespace LoanEngine

instance {ε α : Type} [DecidableEq ε] [DecidableEq α] :
    DecidableEq (Except ε α) := fun x y =>
  match x, y with
  | Except.ok a, Except.ok b =>
      if h : a = b then Decidable.isTrue (congrArg Except.ok h)
      else Decidable.isFalse (fun hh => h (Except.ok.inj hh))
  | Except.error a, Except.error b =>
      if h : a = b then Decidable.isTrue (congrArg Except.error h)
      else Decidable.isFalse (fun hh => h (Except.error.inj hh))
  | Except.ok _, Except.error _ =>
      Decidable.isFalse (fun hh => Except.noConfusion hh)
  | Except.error _, Except.ok _ =>
      Decidable.isFalse (fun hh => Except.noConfusion hh)

/-- A pandas/numpy float64 division result: either a finite value or one of
the IEEE non-finite values.  Rationals stand for the finite doubles. -/
inductive PyFloat where
  | val : ℚ → PyFloat
  | posInf : PyFloat
  | negInf : PyFloat
  | nan : PyFloat
deriving DecidableEq

/-- IEEE float division of finite values, as pandas performs it: a zero
divisor produces ±inf for a nonzero numerator (the rational 0 behaves as
IEEE +0) and nan for 0/0; no exception is ever raised. -/
def pyDiv (a b : ℚ) : PyFloat :=
  if b ≠ 0 then PyFloat.val (a / b)
  else if 0 < a then PyFloat.posInf
  else if a < 0 then PyFloat.negInf
  else PyFloat.nan

/-- Division of a (possibly non-finite) numerator by a finite divisor,
following IEEE semantics (inf/x keeps or flips sign with the divisor,
nan propagates). -/
def pyDivF : PyFloat → ℚ → PyFloat
  | PyFloat.val a, b => pyDiv a b
  | PyFloat.posInf, b => if b < 0 then PyFloat.negInf else PyFloat.posInf
  | PyFloat.negInf, b => if b < 0 then PyFloat.posInf else PyFloat.negInf
  | PyFloat.nan, _ => PyFloat.nan

def PyFloat.isFinite : PyFloat → Bool
  | PyFloat.val _ => true
  | _ => false

/-- The request record of `enhanced_api.py` (pydantic model
`LoanApplication`).  Python ints are `Int`, floats are `ℚ`. -/
structure LoanApplication where
  age : Int
  annual_income : ℚ
  employment_length : Int
  home_ownership : String
  purpose : String
  loan_amount : ℚ
  term_months : Int
  interest_rate : ℚ
  dti : ℚ
  credit_score : ℚ
  delinquency_2yrs : Int
  num_open_acc : Int
deriving DecidableEq

def insertSorted (x : ℚ) : List ℚ → List ℚ
  | [] => [x]
  | y :: ys => if x ≤ y then x :: y :: ys else y :: insertSorted x ys

def sortQ : List ℚ → List ℚ
  | [] => []
  | x :: xs => insertSorted x (sortQ xs)

/-- `pandas.Series.median`: sort, take the middle element (odd length) or
the mean of the two middle elements (even length).  pandas returns NaN on
an empty series; the engine never takes the median of an empty frame, so
the empty case is given an arbitrary value here. -/
def pandasMedian (xs : List ℚ) : ℚ :=
  let s := sortQ xs
  let n := s.length
  if n % 2 = 1 then s.getD (n / 2) 0
  else (s.getD (n / 2 - 1) 0 + s.getD (n / 2) 0) / 2

/-- `pd.cut(credit_score, bins=[0,580,670,740,850], labels=[...],
include_lowest=True)` for one value: right-closed bins, the lowest bin
closed on the left as well; a value outside [0, 850] falls in no bin and
becomes NaN (`none`). -/
def creditScoreBand (c : ℚ) : Option String :=
  if 0 ≤ c ∧ c ≤ 580 then some "Poor"
  else if 580 < c ∧ c ≤ 670 then some "Fair"
  else if 670 < c ∧ c ≤ 740 then some "Good"
  else if 740 < c ∧ c ≤ 850 then some "Excellent"
  else none

/-- One row of the engineered frame: the raw record plus the derived
columns of `add_feature_engineering`. -/
structure EngineeredFeatures where
  raw : LoanApplication
  income_to_loan_ratio : PyFloat
  employment_risk : Bool
  credit_score_binned : Option String
  monthly_payment : PyFloat
  payment_to_income_ratio : PyFloat
  high_interest : Bool
  young_borrower : Bool
  experienced_worker : Bool
  high_credit_score : Bool
  multiple_delinquencies : Bool
  many_open_accounts : Bool
  risk_score : Nat
deriving DecidableEq

/-- The per-row body of `add_feature_engineering`
(src/enhanced_api.py lines 39-66; identical in src/advanced_train.py).
`medInterest` and `medOpenAcc` are the two column medians of the frame the
row belongs to — the only frame-dependent inputs.  `risk_score` is the sum
of exactly the five risk-factor columns cast to int. -/
def engineerRow (medInterest medOpenAcc : ℚ) (app : LoanApplication) :
    EngineeredFeatures :=
  let employment_risk := decide (app.employment_length < 2)
  let high_interest := decide (medInterest < app.interest_rate)
  let young_borrower := decide (app.age < 30)
  let multiple_delinquencies := decide (1 < app.delinquency_2yrs)
  let many_open_accounts := decide (medOpenAcc < (app.num_open_acc : ℚ))
  let monthly_payment := pyDiv app.loan_amount (app.term_months : ℚ)
  { raw := app
    income_to_loan_ratio := pyDiv app.annual_income app.loan_amount
    employment_risk := employment_risk
    credit_score_binned := creditScoreBand app.credit_score
    monthly_payment := monthly_payment
    payment_to_income_ratio := pyDivF monthly_payment (app.annual_income / 12)
    high_interest := high_interest
    young_borrower := young_borrower
    experienced_worker := decide (10 < app.employment_length)
    high_credit_score := decide (750 < app.credit_score)
    multiple_delinquencies := multiple_delinquencies
    many_open_accounts := many_open_accounts
    risk_score := employment_risk.toNat + high_interest.toNat
      + young_borrower.toNat + multiple_delinquencies.toNat
      + many_open_accounts.toNat }

/-- `add_feature_engineering(df)` on a whole frame: the medians of the
`interest_rate` and `num_open_acc` columns are computed from the frame
itself (`df['interest_rate'].median()`, `df['num_open_acc'].median()`) and
every row is engineered against them. -/
def add_feature_engineering (df : List LoanApplication) :
    List EngineeredFeatures :=
  let medInterest := pandasMedian (df.map (fun a => a.interest_rate))
  let medOpenAcc := pandasMedian (df.map (fun a => (a.num_open_acc : ℚ)))
  df.map (engineerRow medInterest medOpenAcc)

/-- The risk-level chain of `predict` (src/enhanced_api.py lines 156-171),
on the unrounded probability. -/
def risk_level_of (p : ℚ) : String :=
  if 0.8 ≤ p then "Very High"
  else if 0.6 ≤ p then "High"
  else if 0.4 ≤ p then "Medium"
  else if 0.2 ≤ p then "Low"
  else "Very Low"

/-- The recommendation chain of `predict` (lines 173-186): the pair
(decision, confidence); the binary label is tested first. -/
def recommendation_of (binary_prediction : Int) (p : ℚ) : String × String :=
  if binary_prediction = 1 then
    ("Reject", if 0.7 < p then "High" else "Medium")
  else
    if p < 0.1 then ("Approve", "High")
    else if p < 0.3 then ("Approve with monitoring", "Medium")
    else ("Further review required", "Low")

/-- The trained-classifier collaborator: probability of class 1 and the
binary label, each fallible (sklearn raises, e.g., on non-finite input;
the failure is captured as an `Except.error` message). -/
structure Classifier where
  predict_proba : EngineeredFeatures → Except String ℚ
  predict : EngineeredFeatures → Except String Int

/-- The parts of the `/predict` JSON response that carry decision content.
`default_probability` is kept unrounded: the response additionally renders
it rounded to 4 decimals, but every decision (risk level, recommendation,
confidence) is taken on the unrounded value. -/
structure PredictionResult where
  default_probability : ℚ
  binary_prediction : Int
  risk_level : String
  confidence : String
  recommendation : String
  income_to_loan_ratio : PyFloat
  monthly_payment : PyFloat
  payment_to_income_ratio : PyFloat
  credit_score_binned : Option String
  risk_score : Nat
  employment_risk : Bool
  high_interest : Bool
  young_borrower : Bool
  multiple_delinquencies : Bool
  many_open_accounts : Bool
deriving DecidableEq

/-- `predict(application)` (src/enhanced_api.py lines 132-229) with a
loaded model: builds a one-row frame from the single record, engineers it,
queries the classifier, classifies the probability.  Any exception inside
the handler is converted to an HTTP 400 whose detail is prefixed
"Prediction error: ". -/
def predict (clf : Classifier) (application : LoanApplication) :
    Except String PredictionResult :=
  match add_feature_engineering [application] with
  | [] => Except.error "Prediction error: empty frame"
  | feats :: _ =>
    match clf.predict_proba feats with
    | Except.error e => Except.error ("Prediction error: " ++ e)
    | Except.ok default_probability =>
      match clf.predict feats with
      | Except.error e => Except.error ("Prediction error: " ++ e)
      | Except.ok binary_prediction =>
        let rec_conf := recommendation_of binary_prediction default_probability
        Except.ok
          { default_probability := default_probability
            binary_prediction := binary_prediction
            risk_level := risk_level_of default_probability
            confidence := rec_conf.2
            recommendation := rec_conf.1
            income_to_loan_ratio := feats.income_to_loan_ratio
            monthly_payment := feats.monthly_payment
            payment_to_income_ratio := feats.payment_to_income_ratio
            credit_score_binned := feats.credit_score_binned
            risk_score := feats.risk_score
            employment_risk := feats.employment_risk
            high_interest := feats.high_interest
            young_borrower := feats.young_borrower
            multiple_delinquencies := feats.multiple_delinquencies
            many_open_accounts := feats.many_open_accounts }

/-- One element of the `results` list of `batch_predict`: either a
success entry or a captured per-item error, each carrying the
`application_id` the loop assigned it. -/
inductive BatchItem where
  | success : Nat → PredictionResult → BatchItem
  | failure : Nat → String → BatchItem
deriving DecidableEq

def BatchItem.application_id : BatchItem → Nat
  | BatchItem.success k _ => k
  | BatchItem.failure k _ => k

def BatchItem.isSuccess : BatchItem → Bool
  | BatchItem.success _ _ => true
  | BatchItem.failure _ _ => false

def BatchItem.isError : BatchItem → Bool
  | BatchItem.success _ _ => false
  | BatchItem.failure _ _ => true

/-- The high-risk test of the batch summary: a success entry whose
risk_level is "High" or "Very High". -/
def BatchItem.isHighRisk : BatchItem → Bool
  | BatchItem.success _ r =>
      r.risk_level == "High" || r.risk_level == "Very High"
  | BatchItem.failure _ _ => false

/-- The body of the batch loop for one element: a successful `predict`
becomes a success entry, an exception is caught and becomes an error
entry, both tagged `application_id = k`. -/
def batchOutcome (k : Nat) : Except String PredictionResult → BatchItem
  | Except.ok r => BatchItem.success k r
  | Except.error e => BatchItem.failure k e

/-- `for i, app in enumerate(applications)` with
`application_id = i + 1`: the loop of src/enhanced_api.py lines 243-257,
started at index `i`. -/
def batchLoop (clf : Classifier) : Nat → List LoanApplication → List BatchItem
  | _, [] => []
  | i, app :: rest =>
      batchOutcome (i + 1) (predict clf app) :: batchLoop clf (i + 1) rest

structure BatchSummary where
  total_applications : Nat
  successful_predictions : Nat
  errors : Nat
  high_risk_count : Nat
deriving DecidableEq

structure BatchResponse where
  summary : BatchSummary
  results : List BatchItem
deriving DecidableEq

/-- `batch_predict(applications)` (src/enhanced_api.py lines 231-274) with
a loaded model: more than 100 applications are rejected up front with an
HTTP 400 before any per-item work; otherwise every element is scored
independently and the summary is folded over the collected results
(`sum(1 for r in results if ...)` = `countP`). -/
def batch_predict (clf : Classifier) (applications : List LoanApplication) :
    Except String BatchResponse :=
  if 100 < applications.length then
    Except.error "Maximum 100 applications per batch"
  else
    let results := batchLoop clf 0 applications
    Except.ok
      { summary :=
          { total_applications := applications.length
            successful_predictions := results.countP (fun r => r.isSuccess)
            errors := results.countP (fun r => r.isError)
            high_risk_count := results.countP (fun r => r.isHighRisk) }
        results := results }

/-! Concrete fixtures used by witnesses and counterexamples. -/

/-- The end-to-end example record of the design document (§8). -/
def baseApp : LoanApplication :=
  { age := 35
    annual_income := 90000
    employment_length := 10
    home_ownership := "OWN"
    purpose := "home_improvement"
    loan_amount := 20000
    term_months := 36
    interest_rate := 10
    dti := 12
    credit_score := 800
    delinquency_2yrs := 0
    num_open_acc := 3 }

/-- `baseApp` with the invalid divisor `loan_amount = 0`. -/
def zeroLoanApp : LoanApplication := { baseApp with loan_amount := 0 }

/-- A concrete stand-in for the loaded sklearn model: it validates its
input the way sklearn does (rejecting non-finite features) and otherwise
returns probability 0.05 and label 0. -/
def sklearnGuard (f : EngineeredFeatures) : Bool :=
  f.income_to_loan_ratio.isFinite && f.monthly_payment.isFinite
    && f.payment_to_income_ratio.isFinite

def clfTest : Classifier :=
  { predict_proba := fun f =>
      if sklearnGuard f then Except.ok 0.05
      else Except.error "Input contains infinity"
    predict := fun f =>
      if sklearnGuard f then Except.ok 0
      else Except.error "Input contains infinity" }

/-- The result `predict clfTest baseApp` evaluates to. -/
def rBase : PredictionResult :=
  { default_probability := 0.05
    binary_prediction := 0
    risk_level := "Very Low"
    confidence := "High"
    recommendation := "Approve"
    income_to_loan_ratio := PyFloat.val (9/2)
    monthly_payment := PyFloat.val (5000/9)
    payment_to_income_ratio := PyFloat.val (2/27)
    credit_score_binned := some "Excellent"
    risk_score := 0
    employment_risk := false
    high_interest := false
    young_borrower := false
    multiple_delinquencies := false
    many_open_accounts := false }

/-- The response `batch_predict clfTest [baseApp]` evaluates to. -/
def oneBatch : BatchResponse :=
  { summary :=
      { total_applications := 1
        successful_predictions := 1
        errors := 0
        high_risk_count := 0 }
    results := [BatchItem.success 1 rBase] }

/-! Helper lemmas shared by several claims. -/

theorem pandasMedian_single (x : ℚ) : pandasMedian [x] = x := by
  simp [pandasMedian, sortQ, insertSorted]

theorem batchLoop_length (clf : Classifier) (l : List LoanApplication) :
    ∀ i, (batchLoop clf i l).length = l.length := by
  induction l with
  | nil => intro i; rfl
  | cons a rest ih => intro i; simp [batchLoop, ih]

theorem batchLoop_getElem (clf : Classifier) (l : List LoanApplication) :
    ∀ i j a, l[j]? = some a →
      (batchLoop clf i l)[j]? =
        some (batchOutcome (i + j + 1) (predict clf a)) := by
  induction l with
  | nil => intro i j a h; simp at h
  | cons x rest ih =>
    intro i j a h
    cases j with
    | zero =>
      simp only [List.getElem?_cons_zero, Option.some.injEq] at h
      subst h
      simp [batchLoop]
    | succ j =>
      simp only [List.getElem?_cons_succ] at h
      have hrec := ih (i + 1) j a h
      simpa [batchLoop, Nat.add_assoc, Nat.add_comm, Nat.add_left_comm]
        using hrec

theorem countP_success_add_isError (l : List BatchItem) :
    l.countP (fun x => x.isSuccess) + l.countP (fun x => x.isError)
      = l.length := by
  induction l with
  | nil => rfl
  | cons a rest ih =>
    rw [List.countP_cons, List.countP_cons, List.length_cons]
    cases a with
    | success k r => rw [show (BatchItem.success k r).isSuccess = true from rfl,
        show (BatchItem.success k r).isError = false from rfl]; simp; omega
    | failure k e => rw [show (BatchItem.failure k e).isSuccess = false from rfl,
        show (BatchItem.failure k e).isError = true from rfl]; simp; omega

/-- On a batch within the size bound, `batch_predict` returns the folded
response over the loop results. -/
theorem batch_predict_ok (clf : Classifier)
    (applications : List LoanApplication)
    (h : applications.length ≤ 100) :
    batch_predict clf applications = Except.ok
      { summary :=
          { total_applications := applications.length
            successful_predictions :=
              (batchLoop clf 0 applications).countP (fun x => x.isSuccess)
            errors :=
              (batchLoop clf 0 applications).countP (fun x => x.isError)
            high_risk_count :=
              (batchLoop clf 0 applications).countP (fun x => x.isHighRisk) }
        results := batchLoop clf 0 applications } := by
  unfold batch_predict
  rw [if_neg (by omega)]

theorem add_feature_engineering_single (app : LoanApplication) :
    add_feature_engineering [app]
      = [engineerRow app.interest_rate (app.num_open_acc : ℚ) app] := by
  simp [add_feature_engineering, pandasMedian_single]

theorem boolSum3_le (a b c : Bool) :
    a.toNat + b.toNat + c.toNat ≤ 3 := by
  cases a <;> cases b <;> cases c <;> decide

theorem boolSum5_le (a b c d e : Bool) :
    a.toNat + b.toNat + c.toNat + d.toNat + e.toNat ≤ 5 := by
  cases a <;> cases b <;> cases c <;> cases d <;> cases e <;> decide

/-! The claims. -/

/-- C1: the claim says `high_interest` and `many_open_accounts` are
computed against fixed training-time reference medians (ReferenceStats)
and the engineered features of a record depend only on that record and
those constants.  The code has no reference statistics at all: it takes
the medians of the in-flight frame (`df['interest_rate'].median()`).
Evaluated at the failing input: the record `baseApp` (interest_rate 10)
engineered alone has `high_interest = false`, but the same record
engineered alongside a second request with interest_rate 5 (frame median
7.5) has `high_interest = true` — the feature depends on what else is in
the request set. -/
theorem C1_median_recomputed_from_request_frame :
    ((add_feature_engineering [baseApp]).map
        (fun f => f.high_interest)) = [false] ∧
    ((add_feature_engineering
          [baseApp, { baseApp with interest_rate := 5 }]).map
        (fun f => f.high_interest)) = [true, false] := by decide

/-- C3 counterexample: at `loan_amount = 0` (and likewise
`term_months = 0`) feature engineering does not fail with an
InvalidInputError — there is no such check anywhere in
`add_feature_engineering` — it returns a record whose division-derived
field is the non-finite value +inf, exactly what the claim says must not
be produced. -/
theorem C3_counterexample_zero_divisor_gives_inf :
    ((add_feature_engineering [zeroLoanApp]).map
        (fun f => f.income_to_loan_ratio)) = [PyFloat.posInf] ∧
    ((add_feature_engineering [{ baseApp with term_months := 0 }]).map
        (fun f => f.monthly_payment)) = [PyFloat.posInf] ∧
    PyFloat.posInf.isFinite = false := by decide

/-- C3 amended: feature engineering is total for every record — it never
raises at all; for records with positive loan_amount and term_months (and
the nonzero annual_income the §3 data model guarantees) every
division-derived field is finite; when loan_amount or term_months is zero
it silently produces a non-finite value (see the counterexample) instead
of failing with InvalidInputError.  `medI`/`medO` are the frame medians,
the only frame-dependent inputs of a row. -/
theorem C3_amended_engineering_finite_on_valid_input (medI medO : ℚ)
    (app : LoanApplication) (hla : 0 < app.loan_amount)
    (htm : 0 < app.term_months) (hinc : app.annual_income ≠ 0) :
    ((engineerRow medI medO app).income_to_loan_ratio).isFinite = true ∧
    ((engineerRow medI medO app).monthly_payment).isFinite = true ∧
    ((engineerRow medI medO app).payment_to_income_ratio).isFinite
      = true := by
  have h1 : app.loan_amount ≠ 0 := ne_of_gt hla
  have h2 : (app.term_months : ℚ) ≠ 0 := by
    have : app.term_months ≠ 0 := by omega
    exact_mod_cast this
  have h3 : app.annual_income / 12 ≠ 0 := div_ne_zero hinc (by norm_num)
  simp [engineerRow, pyDiv, pyDivF, h1, h2, h3, PyFloat.isFinite]

theorem C3_amended_engineering_finite_on_valid_input_witness :
    (0 < baseApp.loan_amount ∧ 0 < baseApp.term_months ∧
      baseApp.annual_income ≠ 0) ∧
    (((engineerRow 12.5 7 baseApp).income_to_loan_ratio).isFinite = true ∧
      ((engineerRow 12.5 7 baseApp).monthly_payment).isFinite = true ∧
      ((engineerRow 12.5 7 baseApp).payment_to_income_ratio).isFinite
        = true) :=
  ⟨by refine ⟨by decide, by decide, by decide⟩,
    C3_amended_engineering_finite_on_valid_input 12.5 7 baseApp
      (by decide) (by decide) (by decide)⟩

/-- C4: a batch of more than 100 applications is rejected up front with
the batch-size error (the HTTP 400 "Maximum 100 applications per batch",
the spec's BatchTooLargeError) before the per-item loop runs, so it
produces no per-item outcome at all; a batch of at most 100 never takes
that branch and always yields a response. -/
theorem C4_batch_size_limit (clf : Classifier)
    (applications : List LoanApplication) :
    (100 < applications.length →
      batch_predict clf applications
        = Except.error "Maximum 100 applications per batch") ∧
    (applications.length ≤ 100 →
      ∃ r, batch_predict clf applications = Except.ok r) := by
  constructor
  · intro h
    unfold batch_predict
    rw [if_pos h]
  · intro h
    exact ⟨_, batch_predict_ok clf applications h⟩

theorem C4_batch_size_limit_witness :
    (100 < (List.replicate 101 baseApp).length ∧
      batch_predict clfTest (List.replicate 101 baseApp)
        = Except.error "Maximum 100 applications per batch") ∧
    ([baseApp].length ≤ 100 ∧
      ∃ r, batch_predict clfTest [baseApp] = Except.ok r) :=
  ⟨⟨by simp, (C4_batch_size_limit clfTest (List.replicate 101 baseApp)).1
      (by simp)⟩,
    ⟨by simp, (C4_batch_size_limit clfTest [baseApp]).2 (by simp)⟩⟩

/-- C5: the risk tier of `predict` is the closed-lower-bound,
right-open-except-top chain on the unrounded probability
("Very High" = VeryHigh, "Very Low" = VeryLow, etc.), with the exact
boundary behaviour the claim names at 0.8, 0.7999, 0.4, 0.2 and 0. -/
theorem C5_risk_tier_thresholds (p : ℚ) (h0 : 0 ≤ p) (h1 : p ≤ 1) :
    (0.8 ≤ p → risk_level_of p = "Very High") ∧
    (0.6 ≤ p → p < 0.8 → risk_level_of p = "High") ∧
    (0.4 ≤ p → p < 0.6 → risk_level_of p = "Medium") ∧
    (0.2 ≤ p → p < 0.4 → risk_level_of p = "Low") ∧
    (p < 0.2 → risk_level_of p = "Very Low") ∧
    risk_level_of 0.8 = "Very High" ∧
    risk_level_of 0.7999 = "High" ∧
    risk_level_of 0.4 = "Medium" ∧
    risk_level_of 0.2 = "Low" ∧
    risk_level_of 0 = "Very Low" := by
  refine ⟨?_, ?_, ?_, ?_, ?_,
    by decide, by decide, by decide, by decide, by decide⟩
  · intro h
    unfold risk_level_of
    rw [if_pos h]
  · intro ha hb
    unfold risk_level_of
    rw [if_neg (by linarith), if_pos ha]
  · intro ha hb
    unfold risk_level_of
    rw [if_neg (by linarith), if_neg (by linarith), if_pos ha]
  · intro ha hb
    unfold risk_level_of
    rw [if_neg (by linarith), if_neg (by linarith), if_neg (by linarith),
      if_pos ha]
  · intro h
    unfold risk_level_of
    rw [if_neg (by linarith), if_neg (by linarith), if_neg (by linarith),
      if_neg (by linarith)]

theorem C5_risk_tier_thresholds_witness :
    ((0 : ℚ) ≤ 0.5 ∧ (0.5 : ℚ) ≤ 1) ∧
    risk_level_of 0.5 = "Medium" :=
  ⟨⟨by decide, by decide⟩,
    (C5_risk_tier_thresholds 0.5 (by decide) (by decide)).2.2.1
      (by decide) (by decide)⟩

/-- C6: the binary label is tested before any tier logic, so label 1
always yields "Reject" — confidence "High" exactly when the probability
exceeds 0.7 and "Medium" otherwise (in particular at p = 0.15) — and
label 0 yields "Approve"/"High" below 0.1, "Approve with monitoring"
(ApproveWithMonitoring)/"Medium" on [0.1, 0.3), and
"Further review required" (FurtherReview)/"Low" from 0.3 up. -/
theorem C6_recommendation_label_precedence (p : ℚ)
    (h0 : 0 ≤ p) (h1 : p ≤ 1) :
    (recommendation_of 1 p).1 = "Reject" ∧
    (0.7 < p → (recommendation_of 1 p).2 = "High") ∧
    (p ≤ 0.7 → (recommendation_of 1 p).2 = "Medium") ∧
    recommendation_of 1 0.15 = ("Reject", "Medium") ∧
    (p < 0.1 → recommendation_of 0 p = ("Approve", "High")) ∧
    (0.1 ≤ p → p < 0.3 →
      recommendation_of 0 p = ("Approve with monitoring", "Medium")) ∧
    (0.3 ≤ p → recommendation_of 0 p
      = ("Further review required", "Low")) := by
  refine ⟨by simp [recommendation_of], ?_, ?_, by decide, ?_, ?_, ?_⟩
  · intro h
    simp [recommendation_of, h]
  · intro h
    have hn : ¬((0.7 : ℚ) < p) := not_lt.mpr h
    simp [recommendation_of, hn]
  · intro h
    simp [recommendation_of, h]
  · intro ha hb
    have hn : ¬(p < 0.1) := not_lt.mpr ha
    simp [recommendation_of, hn, hb]
  · intro h
    have n1 : ¬(p < 0.1) := by linarith
    have n2 : ¬(p < 0.3) := by linarith
    simp [recommendation_of, n1, n2]

theorem C6_recommendation_label_precedence_witness :
    ((0 : ℚ) ≤ 0.15 ∧ (0.15 : ℚ) ≤ 1) ∧
    recommendation_of 1 0.15 = ("Reject", "Medium") :=
  ⟨⟨by decide, by decide⟩,
    (C6_recommendation_label_precedence 0.15
      (by decide) (by decide)).2.2.2.1⟩

/-- C7: `risk_score` is the sum of exactly the five boolean risk-factor
columns, hence at most 5 (it is a `Nat`, hence at least 0); and the two
informational flags never enter it: changing `credit_score` (the sole
input of `high_credit_score`) arbitrarily, or moving `employment_length`
anywhere in [2, ∞) (which flips `experienced_worker` but keeps
`employment_risk` false), leaves `risk_score` unchanged. -/
theorem C7_risk_score_counts_exactly_five_factors (medI medO : ℚ)
    (app : LoanApplication) (c : ℚ) (e1 e2 : Int)
    (h1 : 2 ≤ e1) (h2 : 2 ≤ e2) :
    (engineerRow medI medO app).risk_score
        = ((engineerRow medI medO app).employment_risk).toNat
          + ((engineerRow medI medO app).high_interest).toNat
          + ((engineerRow medI medO app).young_borrower).toNat
          + ((engineerRow medI medO app).multiple_delinquencies).toNat
          + ((engineerRow medI medO app).many_open_accounts).toNat ∧
    (engineerRow medI medO app).risk_score ≤ 5 ∧
    (engineerRow medI medO { app with credit_score := c }).risk_score
        = (engineerRow medI medO app).risk_score ∧
    (engineerRow medI medO { app with employment_length := e1 }).risk_score
        = (engineerRow medI medO
            { app with employment_length := e2 }).risk_score := by
  refine ⟨rfl, ?_, rfl, ?_⟩
  · show (engineerRow medI medO app).risk_score ≤ 5
    simp only [engineerRow]
    exact boolSum5_le _ _ _ _ _
  · have k1 : ¬(e1 < 2) := by omega
    have k2 : ¬(e2 < 2) := by omega
    simp [engineerRow, k1, k2]

theorem C7_risk_score_counts_exactly_five_factors_witness :
    ((2 : Int) ≤ 3 ∧ (2 : Int) ≤ 11) ∧
    ((engineerRow 12.5 7 baseApp).risk_score
        = ((engineerRow 12.5 7 baseApp).employment_risk).toNat
          + ((engineerRow 12.5 7 baseApp).high_interest).toNat
          + ((engineerRow 12.5 7 baseApp).young_borrower).toNat
          + ((engineerRow 12.5 7 baseApp).multiple_delinquencies).toNat
          + ((engineerRow 12.5 7 baseApp).many_open_accounts).toNat ∧
      (engineerRow 12.5 7 baseApp).risk_score ≤ 5 ∧
      (engineerRow 12.5 7 { baseApp with credit_score := 900 }).risk_score
          = (engineerRow 12.5 7 baseApp).risk_score ∧
      (engineerRow 12.5 7
            { baseApp with employment_length := 3 }).risk_score
          = (engineerRow 12.5 7
              { baseApp with employment_length := 11 }).risk_score) :=
  ⟨⟨by decide, by decide⟩,
    C7_risk_score_counts_exactly_five_factors 12.5 7 baseApp 900 3 11
      (by decide) (by decide)⟩

/-- C8 counterexample: `pd.cut` leaves values outside the outermost bin
edges unassigned (NaN), it does not clip them to the nearest bin: a
credit_score of 900 gets no band at all (not "Excellent"), and -5 gets no
band (not "Poor"). -/
theorem C8_counterexample_out_of_range_unassigned :
    creditScoreBand 900 = none ∧
    creditScoreBand (-5) = none ∧
    ((add_feature_engineering [{ baseApp with credit_score := 900 }]).map
        (fun f => f.credit_score_binned)) = [none] := by decide

/-- C8 amended: the bins are as the claim states them — [0,580] Poor with
the left edge inclusive, (580,670] Fair, (670,740] Good, (740,850]
Excellent — but a credit_score below 0 or above 850 falls in no bin and
is left unassigned (pandas NaN, `none` here), not clipped to the nearest
boundary bin. -/
theorem C8_credit_score_bins (c : ℚ) :
    (0 ≤ c → c ≤ 580 → creditScoreBand c = some "Poor") ∧
    (580 < c → c ≤ 670 → creditScoreBand c = some "Fair") ∧
    (670 < c → c ≤ 740 → creditScoreBand c = some "Good") ∧
    (740 < c → c ≤ 850 → creditScoreBand c = some "Excellent") ∧
    (c < 0 → creditScoreBand c = none) ∧
    (850 < c → creditScoreBand c = none) := by
  refine ⟨?_, ?_, ?_, ?_, ?_, ?_⟩
  · intro ha hb
    unfold creditScoreBand
    rw [if_pos ⟨ha, hb⟩]
  · intro ha hb
    have n1 : ¬((0 : ℚ) ≤ c ∧ c ≤ 580) := fun w => absurd w.2 (not_le.mpr ha)
    unfold creditScoreBand
    rw [if_neg n1, if_pos ⟨ha, hb⟩]
  · intro ha hb
    have n1 : ¬((0 : ℚ) ≤ c ∧ c ≤ 580) :=
      fun w => absurd w.2 (not_le.mpr (by linarith))
    have n2 : ¬((580 : ℚ) < c ∧ c ≤ 670) :=
      fun w => absurd w.2 (not_le.mpr ha)
    unfold creditScoreBand
    rw [if_neg n1, if_neg n2, if_pos ⟨ha, hb⟩]
  · intro ha hb
    have n1 : ¬((0 : ℚ) ≤ c ∧ c ≤ 580) :=
      fun w => absurd w.2 (not_le.mpr (by linarith))
    have n2 : ¬((580 : ℚ) < c ∧ c ≤ 670) :=
      fun w => absurd w.2 (not_le.mpr (by linarith))
    have n3 : ¬((670 : ℚ) < c ∧ c ≤ 740) :=
      fun w => absurd w.2 (not_le.mpr ha)
    unfold creditScoreBand
    rw [if_neg n1, if_neg n2, if_neg n3, if_pos ⟨ha, hb⟩]
  · intro h
    have n1 : ¬((0 : ℚ) ≤ c ∧ c ≤ 580) :=
      fun w => absurd w.1 (not_le.mpr h)
    have n2 : ¬((580 : ℚ) < c ∧ c ≤ 670) :=
      fun w => absurd w.1 (by linarith)
    have n3 : ¬((670 : ℚ) < c ∧ c ≤ 740) :=
      fun w => absurd w.1 (by linarith)
    have n4 : ¬((740 : ℚ) < c ∧ c ≤ 850) :=
      fun w => absurd w.1 (by linarith)
    unfold creditScoreBand
    rw [if_neg n1, if_neg n2, if_neg n3, if_neg n4]
  · intro h
    have n1 : ¬((0 : ℚ) ≤ c ∧ c ≤ 580) :=
      fun w => absurd w.2 (not_le.mpr (by linarith))
    have n2 : ¬((580 : ℚ) < c ∧ c ≤ 670) :=
      fun w => absurd w.2 (not_le.mpr (by linarith))
    have n3 : ¬((670 : ℚ) < c ∧ c ≤ 740) :=
      fun w => absurd w.2 (not_le.mpr (by linarith))
    have n4 : ¬((740 : ℚ) < c ∧ c ≤ 850) :=
      fun w => absurd w.2 (not_le.mpr h)
    unfold creditScoreBand
    rw [if_neg n1, if_neg n2, if_neg n3, if_neg n4]

theorem C8_credit_score_bins_witness :
    ((580 : ℚ) < 600 ∧ (600 : ℚ) ≤ 670) ∧
    creditScoreBand 600 = some "Fair" :=
  ⟨⟨by decide, by decide⟩,
    (C8_credit_score_bins 600).2.1 (by decide) (by decide)⟩

/-- C2 counterexample: in a 2-item batch whose element at position 0
(0-indexed) fails, the captured error outcome is tagged
`application_id = 1` — the loop tags every outcome with `i + 1`
(1-based), never with the 0-based index the claim states — while the
subsequent element is still scored.  The second conjunct states the
claim's tagging (0 for the first element, 1 for the second) does not
hold at this input. -/
theorem C2_counterexample_tag_is_one_based :
    (batch_predict clfTest [zeroLoanApp, baseApp]).map
        (fun r => r.results.map (fun it => (it.application_id, it.isSuccess)))
      = Except.ok [(1, false), (2, true)] ∧
    (batch_predict clfTest [zeroLoanApp, baseApp]).map
        (fun r => r.results.map (fun it => it.application_id))
      ≠ Except.ok [0, 1] := by
  refine ⟨by decide, by decide⟩

/-- C2 amended: for every batch of at most 100 applications,
`batch_predict` succeeds with exactly one outcome per input position in
input order, and the outcome at position i (0-indexed) is exactly the
captured result of scoring input i alone — a per-item error for a
failure, a success entry otherwise, tagged with `application_id = i + 1`
(the 1-based position, not the 0-based index) — so an individual failure
never prevents any other element from being scored. -/
theorem C2_batch_per_item_isolated_outcomes (clf : Classifier)
    (applications : List LoanApplication) (r : BatchResponse)
    (h : applications.length ≤ 100)
    (hr : batch_predict clf applications = Except.ok r) :
    r.results.length = applications.length ∧
    ∀ i a, applications[i]? = some a →
      r.results[i]? = some (batchOutcome (i + 1) (predict clf a)) := by
  rw [batch_predict_ok clf applications h] at hr
  injection hr with hr
  subst hr
  constructor
  · exact batchLoop_length clf applications 0
  · intro i a ha
    have hg := batchLoop_getElem clf applications 0 i a ha
    simpa using hg

theorem C2_batch_per_item_isolated_outcomes_witness :
    ([baseApp].length ≤ 100 ∧
      batch_predict clfTest [baseApp] = Except.ok oneBatch) ∧
    (oneBatch.results.length = [baseApp].length ∧
      ∀ i a, [baseApp][i]? = some a →
        oneBatch.results[i]? =
          some (batchOutcome (i + 1) (predict clfTest a))) :=
  ⟨⟨by decide, by decide⟩,
    C2_batch_per_item_isolated_outcomes clfTest [baseApp] oneBatch
      (by decide) (by decide)⟩

/-- C9: on every accepted batch the summary is exactly the fold the claim
describes: total is the input length, success/errors count the two kinds
of captured outcomes (and partition the total), and high_risk_count
counts the success outcomes whose risk_level is "High" or "Very High". -/
theorem C9_summary_is_fold_over_outcomes (clf : Classifier)
    (applications : List LoanApplication) (r : BatchResponse)
    (h : applications.length ≤ 100)
    (hr : batch_predict clf applications = Except.ok r) :
    r.summary.total_applications = applications.length ∧
    r.summary.successful_predictions
        = r.results.countP (fun x => x.isSuccess) ∧
    r.summary.errors = r.results.countP (fun x => x.isError) ∧
    r.summary.successful_predictions + r.summary.errors
        = r.summary.total_applications ∧
    r.summary.high_risk_count
        = r.results.countP (fun x => x.isHighRisk) := by
  rw [batch_predict_ok clf applications h] at hr
  injection hr with hr
  subst hr
  refine ⟨rfl, rfl, rfl, ?_, rfl⟩
  show (batchLoop clf 0 applications).countP (fun x => x.isSuccess)
      + (batchLoop clf 0 applications).countP (fun x => x.isError)
    = applications.length
  rw [countP_success_add_isError]
  exact batchLoop_length clf applications 0

theorem C9_summary_is_fold_over_outcomes_witness :
    ([baseApp].length ≤ 100 ∧
      batch_predict clfTest [baseApp] = Except.ok oneBatch) ∧
    (oneBatch.summary.total_applications = [baseApp].length ∧
      oneBatch.summary.successful_predictions
          = oneBatch.results.countP (fun x => x.isSuccess) ∧
      oneBatch.summary.errors
          = oneBatch.results.countP (fun x => x.isError) ∧
      oneBatch.summary.successful_predictions + oneBatch.summary.errors
          = oneBatch.summary.total_applications ∧
      oneBatch.summary.high_risk_count
          = oneBatch.results.countP (fun x => x.isHighRisk)) :=
  ⟨⟨by decide, by decide⟩,
    C9_summary_is_fold_over_outcomes clfTest [baseApp] oneBatch
      (by decide) (by decide)⟩

/-- On the serving path the frame has exactly one row, so each median is
that row's own value and the strict comparisons defining `high_interest`
and `many_open_accounts` are comparisons of a value with itself. -/
theorem engineerRow_self_median (app : LoanApplication) :
    (engineerRow app.interest_rate (app.num_open_acc : ℚ)
        app).high_interest = false ∧
    (engineerRow app.interest_rate (app.num_open_acc : ℚ)
        app).many_open_accounts = false ∧
    (engineerRow app.interest_rate (app.num_open_acc : ℚ)
        app).risk_score ≤ 3 := by
  refine ⟨by simp [engineerRow], by simp [engineerRow], ?_⟩
  show (engineerRow app.interest_rate (app.num_open_acc : ℚ)
      app).risk_score ≤ 3
  simp only [engineerRow, lt_self_iff_false, decide_False, Bool.toNat_false,
    add_zero, zero_add]
  exact boolSum3_le _ _ _

/-- C10: every single-record prediction that succeeds has
`high_interest = false` and `many_open_accounts = false` (each is a
strict comparison of the record's value against the median of its own
one-row frame), so its `risk_score` is at most 3, whatever
interest_rate or num_open_acc were submitted. -/
theorem C10_single_record_features_capped (clf : Classifier)
    (app : LoanApplication) (r : PredictionResult)
    (h : predict clf app = Except.ok r) :
    r.high_interest = false ∧ r.many_open_accounts = false ∧
    r.risk_score ≤ 3 := by
  unfold predict at h
  rw [add_feature_engineering_single app] at h
  dsimp only at h
  rcases hp : clf.predict_proba
      (engineerRow app.interest_rate (app.num_open_acc : ℚ) app) with e | p
  · rw [hp] at h
    exact Except.noConfusion h
  · rw [hp] at h
    dsimp only at h
    rcases hl : clf.predict
        (engineerRow app.interest_rate (app.num_open_acc : ℚ) app)
      with e | lbl
    · rw [hl] at h
      exact Except.noConfusion h
    · rw [hl] at h
      dsimp only at h
      injection h with h
      subst h
      have hm := engineerRow_self_median app
      exact ⟨hm.1, hm.2.1, hm.2.2⟩

theorem C10_single_record_features_capped_witness :
    predict clfTest baseApp = Except.ok rBase ∧
    (rBase.high_interest = false ∧ rBase.many_open_accounts = false ∧
      rBase.risk_score ≤ 3) :=
  ⟨by decide,
    C10_single_record_features_capped clfTest baseApp rBase (by decide)⟩

end LoanEngine
